import Mathlib

/-!
Verification of the structural properties of the `tipuesearch` data files
of the wcmj2021 repository.

The repository contains two JavaScript data files, each of which consists
of a single top-level statement of the form `var tipuesearch = <literal>;`
where `<literal>` is an object literal holding one key `pages` whose value
is an array of page records.  We embed the JavaScript value universe as an
inductive type `JSValue`, translate each file's literal into a `JSValue`
constant, and model the file's (single-statement) program in a small
statement language so that its evaluation behaviour can be stated.
-/

/-- Untyped JavaScript values, as they occur in the data files: strings,
numbers, booleans, `null`, arrays and objects (ordered field lists). -/
inductive JSValue : Type where
  | str : String → JSValue
  | num : Int → JSValue
  | boolean : Bool → JSValue
  | null : JSValue
  | arr : List JSValue → JSValue
  | obj : List (String × JSValue) → JSValue

/-- Look a key up in an ordered field list (first occurrence wins,
mirroring how repeated keys behave in a JavaScript object literal). -/
def lookupField (k : String) : List (String × JSValue) → Option JSValue
  | [] => none
  | (k2, v) :: rest => if k = k2 then some v else lookupField k rest

/-- Field access `v[k]` on an object value; `none` on non-objects. -/
def JSValue.field (v : JSValue) (k : String) : Option JSValue :=
  match v with
  | .obj fs => lookupField k fs
  | _ => none

/-- Is the value a string? -/
def JSValue.isStr : JSValue → Bool
  | .str _ => true
  | _ => false

/-- The `title` field of a record, when present and a string. -/
def titleOf (r : JSValue) : Option String :=
  match r.field "title" with
  | some (.str s) => some s
  | _ => none

/-- The `text` field of a record, when present and a string. -/
def textOf (r : JSValue) : Option String :=
  match r.field "text" with
  | some (.str s) => some s
  | _ => none

/-- The `tags` field of a record, when present and a string. -/
def tagsOf (r : JSValue) : Option String :=
  match r.field "tags" with
  | some (.str s) => some s
  | _ => none

/-- The `url` field of a record, when present and a string. -/
def urlOf (r : JSValue) : Option String :=
  match r.field "url" with
  | some (.str s) => some s
  | _ => none

/-- All string titles of a list of page records, in order. -/
def titlesOf (pages : List JSValue) : List String := pages.filterMap titleOf

/-- All string urls of a list of page records, in order. -/
def urlsOf (pages : List JSValue) : List String := pages.filterMap urlOf

/-- A page record is well formed when it is an object whose keys are
exactly `title`, `text`, `tags`, `url` (in the order the files write
them) and every field value is a string (in particular none is `null`). -/
def pageWellFormed (r : JSValue) : Bool :=
  match r with
  | .obj fs =>
      decide (fs.map Prod.fst = ["title", "text", "tags", "url"]) &&
        fs.all (fun p => p.2.isStr)
  | _ => false

/-- Does the character list `pat` occur as a contiguous sublist of `s`? -/
def hasSubstr (pat : List Char) : List Char → Bool
  | [] => pat.isEmpty
  | c :: rest => List.isPrefixOf pat (c :: rest) || hasSubstr pat rest

/-- A string is a well-formed relative path ending in `.html` when it
contains no URI scheme separator `://`, does not start with `/`, and has
`.html` as a suffix. -/
def isRelativeHtmlUrl (s : String) : Bool :=
  !(hasSubstr "://".data s.data) &&
    (match s.data with
     | [] => false
     | c :: _ => decide (c ≠ '/')) &&
    List.isSuffixOf ".html".data s.data

/-- The record's `url` field is a string that is a well-formed relative
path ending in `.html`. -/
def urlWellFormed (r : JSValue) : Bool :=
  match urlOf r with
  | some u => isRelativeHtmlUrl u
  | none => false

/-- The record's `tags` field is the empty string. -/
def tagsEmpty (r : JSValue) : Bool :=
  match tagsOf r with
  | some t => decide (t = "")
  | none => false

/-- The record's `url` field equals its `title` field with `.html`
appended. -/
def urlMatchesTitle (r : JSValue) : Bool :=
  match titleOf r, urlOf r with
  | some t, some u => decide (u = t ++ ".html")
  | _, _ => false

/-- The top-level value is an object with exactly one key, `pages`, whose
value is an array. -/
def topLevelShape (v : JSValue) : Bool :=
  match v with
  | .obj [("pages", .arr _)] => true
  | _ => false

/-- The array under the `pages` key of a top-level value, or `[]`. -/
def pagesOf (v : JSValue) : List JSValue :=
  match v.field "pages" with
  | some (.arr l) => l
  | _ => []

namespace ContentJs

/-- The `pages` array literal of the file, record by record. -/
def pagesList : List JSValue :=
  [JSValue.obj [("title", JSValue.str "About"), ("text", JSValue.str "This is  https://github.com/mdecourse/cmstemplate \n 電腦輔助設計室與協同設計室行事曆 \n 全頁檢視 \n \n"), ("tags", JSValue.str ""), ("url", JSValue.str "About.html")],
    JSValue.obj [("title", JSValue.str "三道牆理論"), ("text", JSValue.str "KMOLab 所開設課程目的是將擋在機械工程師面前的三道牆, 直接利用課程講授的過程, 一一呈現, 讓大家有及時找出突破這三道障礙的機會, 不僅讓各自的潛能有所發揮, 同時也希望大家能更自在地面對未來的更多挑戰. 這三道牆分別是: \n 理論基礎障礙 實務練習障礙 確立目標障礙 \n 理論基礎障礙 \n 所謂的理論基礎障礙就是技職體系學生在高中階段經常疏忽的英文, 數學與邏輯思考與獲取學問的基本能力. 也就是英文聽說讀寫的基本能力, 數學基本能力與了解如何透過邏輯思考解題, 並且學習如何發問, 如何與人協同合作解決問題的能力. \n 實務練習障礙 \n 第二道牆則是實務練習障礙, 許多人不願意花時間在突破上述第一道障礙的原因, 通常是因為不知道學習這些相對抽象的知識有甚麼用處? 因此, 為了凸顯突破第一道牆的重要性, 就必須要透過實際的課程案例, 讓大家了解一旦能突破第一道牆的障礙後, 養成持續學習這些理論基礎內容之後, 就可以相對用比較有效率的方式解決各種問題. \n 但是這需要學習者付出時間與耐性, 當面對完全陌生議題時, 就必須檢討是否第一道牆仍然卡在自己與解決方案中間. 然後用心不斷思考, 探索與練習之後, 若還是無法解決問題. 就必須要先試著描述問題後再尋求他人的協助. \n 假如能有以上的正確學習態度, 就有機會在面對各種問題時, 持續突破前面的兩道牆, 然後看到自己所追求的第三道牆, 並且此後能夠竭盡全力, 翻閱第三道牆的障礙, 積極達成預定目標. \n 確立目標障礙 \n 你的人生目標是甚麼?"), ("tags", JSValue.str ""), ("url", JSValue.str "三道牆理論.html")],
    JSValue.obj [("title", JSValue.str "Blogger"), ("text", JSValue.str "網誌: \n https://www.blogger.com/ \n https://blog.getpelican.com/ \n 論壇: \n https://www.discourse.org/ \n https://jpme.eng.nfu.edu.tw \n https://forum.eng.nfu.edu.tw \n Blogger, Pelican 與 Discourse 內容能不能整合並同步? \n https://mdecourse.blogspot.com/2020/05/pelican-blogger_21.html   \n https://meta.discourse.org/t/how-can-i-implement-a-blog-page-in-discourse-forum-software/48496/6   \n"), ("tags", JSValue.str ""), ("url", JSValue.str "Blogger.html")],
    JSValue.obj [("title", JSValue.str "個人電腦"), ("text", JSValue.str "機械工程師由於必須在個人電腦上繪製並顯示 3D 零組件, 因此個人電腦通常需要配備獨立顯示卡, 其基本規格與電競機類似: \n https://www.crucial.tw/articles/for-gamers/the-best-specs-for-a-gaming-pc \n CPU ( Central Processing Unit ) - 中央處理器 \n Intel Processor:  https://en.wikipedia.org/wiki/List_of_Intel_processors \n AMD Processor:  https://en.wikipedia.org/wiki/List_of_AMD_processors \n ARM Architecture:  https://en.wikipedia.org/wiki/ARM_architecture \n Apple Designed Processor:  https://en.wikipedia.org/wiki/Apple-designed_processors  　 \n FULL HD ( High Definition ) \n Motherboard  主機板 \n RAM ( Random-Access Memory ) \n DDR ( Double Data Rate ) \n 何謂 HDD/SSD? 有何差別? \n 何謂 RPM? \n 何謂 ATA、PATA、與 SATA 連接埠? 有何差別? \n 何謂 Video Card? \n 何謂 fps? \n 何謂 DVI? \n 何謂 HDMI? \n 何謂  LED ? \n 何謂 DirectX? \n 何謂  Watt ? \n 何謂  Power ? \n 何謂 Hz ( Hertz )? \n Computer Monitor \n 何謂 ppi?"), ("tags", JSValue.str ""), ("url", JSValue.str "個人電腦.html")],
    JSValue.obj [("title", JSValue.str "Network"), ("text", JSValue.str "Understanding bandwidth Bandwidth refers to the data rate that is supported by the network connection or the interfaces that connect to the network. It represents both volume and time, representing the amount of data that can be transmitted between two points in a set period of time. It is usually expressed in terms of bits per second (bps), or sometimes in bytes per second (Bps). Network bandwidth represents the capacity of the network connection, though it\x27s important to understand the distinction between theoretical throughput and real-world results when figuring out the right bandwidth formula for your network. For example, a 1000BASE-T -- which uses unshielded twisted-pair cables -- Gigabit Ethernet (GbE) network can theoretically support 1,000 megabits per second (Mbps), but this level can never really be achieved in practice because of hardware and systems software overhead. One point to consider when thinking about how to calculate bandwidth needs on your network is this: Bandwidth should not be confused with throughput, which refers to speed. While high-bandwidth networks are often fast, that is not always the case. A helpful metaphor when thinking about bandwidth is cars on a highway. A high-bandwidth network is like a six-lane highway that can fit hundreds of cars at any given moment. A low-bandwidth network is like a single-lane road in which one car queues directly behind another. Although the large highway is likely to move vehicles faster, rush-hour traffic can easily bring cars and trucks to a standstill. Or, perhaps, the cars cannot get onto the highway quickly because it\x27s clogged with large delivery trucks that take up a lot of space on the road. Similarly, even a high-bandwidth network can run slowly in the face of problems, such as congestion and bandwidth-hungry applications. These very points make calculating bandwidth requirements a challenge, yet the consequences of getting the bandwidth formula wrong are considerable. If you don\x27t procure enough bandwidth, you all but guarantee the network will run slowly. However, significantly overprovisioning bandwidth can be cost-prohibitive for most enterprises. So, how do you determine the right formula that will meet your bandwidth requirements? The process begins with asking the right questions: What applications are users running, and what is the performance service-level agreement for these applications? I know some network managers who are only concerned with how many users are on a virtual LAN. What you really need to know is what the users will be doing on the network. It\x27s possible that 200 users will cause less of a bottleneck than a group of three users that really beats the heck out of the network because of some funky client-server application or extensive use of a bandwidth-heavy service, like high-definition video conferencing. \n \n 了解  https://www.wireshark.org  的用法, 並藉以提升網路頻寬的使用效能及安全. \n 近端下載 \n http://a.kmol.info:88/Wireshark-win64-3.4.2.exe"), ("tags", JSValue.str ""), ("url", JSValue.str "Network.html")],
    JSValue.obj [("title", JSValue.str "Switch"), ("text", JSValue.str "Not all switches are created equal. \n 來源 \n https://www.cisco.com/c/en/us/products/switches/index.html#~products \n https://www.cisco.com/c/dam/en/us/products/collateral/switches/catalyst-9300-series-switches/nb-06-upgrading-cat-9300-fc-cte-en.pdf \n internally to a switch a specialized hardware is needed to move frames between ports. This specific part can be called backplane (背板) or in some cases we talk of switching fabric (交換結構). When the forwarding capabilities of a backplane or switching fabric are greater then the sum of speeds of all ports (counted twice one for tx and one rx direction) we call the switching fabric non blocking: traffic between a pair of ports is not influenced by what traffic is exchanged on all other ports. The forwarding rate is expressed in packet per seconds and expresses how many packets per second are needed to reach a certain traffic volume (throughpout) Clearly forwarding rate depends on frame size. Ideally a backplane switching fabric should be non blocking for every frame size including the smallest ones (64 bytes in ethernet standard) but in reality most devices can be non blocking for an average size of 400 bytes. bandwidth: the speed of traffic. to convert between forwarding rate and used bandwidth we need to take in account some specific aspects of ethernet: each frame has an 8 byte preamble that is used to allow to potential receiver to synchronize with the signal between two frames a minimum silence interval must exist to allow receiver to discriminate between two frames preamble and inter frame gap counts for 20,2 bytes. So given an iP packet of size N the ethernet frame has size N+18  (header 14 bytes, FCS 4 byte) but counts as (N+18+20,2)*8 on wire 8 is number of bits in a byte with this kind of calculation using frames of minimum size 64 bytes you need 1488000 frames per second and per direction to fill a GE port. Be also aware that all figures you see sum tx and rx directions so if a switch has 100 M pps capability this accounts for a certain number of GE ports at 1 Gbps full duplex. \n Do not confuse the speed of the stackwise ring with the internal switching fabric of each stack member, they are different: the internal switching fabric should be used for traffic between ports on the same stack member device, the stackwise bandwidth should be used when traffic must flow between ports located on different stack members. Note: this is just my assumption about the implementation of stack, it may be different with the dual ring involved also for traffic between two ports on the same member switch. (total lack of so called local switching capabilities). The stack implements a dual ring topology between the member switches that act as an extension of the individual switching fabrics. The speed of the ring for a stack of only 3750-X (stackwise plus) should be 32 Gbps full duplex that allows for a very good interconnection between member switches, but I agree it is not enough to classify the composite switching fabric as not blocking. On the other hand, only models with 10GE ports can be interconnected at comparable speeds. To make a comparison a C6500 equipped with Sup720 generation route processor provides up to 40 Gbps per slot to/from the switching fabric and some linecards are faster then that ( think of  WS-6708 or WS-6716 with 8 and 16 tengiga ports respectively). About the forwarding capacity in pps: for a 24 ports device is listed as 65.5 Mbps that accounts for 22 GE ports 1Gbps full duplex with 64 byte frames. \n An original series 3750 (or 3560) fabric is 32 Gbps.  This is different from the stack ring\x27s \"32 Gbps\" (which is really dual 8 Gbps, duplex). An original series 3750 (or 3560) internal fabric, in theory, is oversubscribed by more than 16 gig ports (i.e. the \"G\" suffixed original models). The terms non-blocking and blocking, when examining switch fabric isn\x27t just sufficient bandwidth capacity to forward all port bandwidths, it\x27s whether the fabric\x27s architecture will block, or not, forwarding of frames even if there\x27s \"sufficient\" bandwidth. For example, you have three ingress ports.  Two are sending to one egress port (2:1) and the other is sending to other egress port (1:1).  If 2:1 congestion on the one egress port delays (or blocks) transmission on the 1:1 egress port, you have HOL (head-of-line) blocking even though the internal fabric\x27s bandwidth could support each ingress port sending to a separate egress port (all 1:1). StackWise (and StackWise+), when available, use both ring ports. Original StackWise copies ALL member switch traffic to the stack ring.  Original StackWise source stack member also removes the traffic it placed on the stack ring. StackWise Plus only places unicast traffic on the stack ring when destination is not a local switch port.  Additionally, destination switch member removes unicast packets.  (I.e. StackWise+ uses it\x27s ring much more intelligently.  It also has dual 16 Gbps stack ring ports.  NB:StackWise+, for the most part, reverts to StackWise operation if there\x27s a StackWise only member switch in the stack [good reason not to use such mixed stacks].) Bits per second, is the transmission rate supported by the media.  So, for example, 100 Mbps allows transmission of 100,000,000 bits per seconds.  However, transferring actual data, in something like physical segments (e.g. frames) uses some of this capacity for both framing overhead and framing delineation, so useful capacity is less than the often quoted bps rate.  Useful capacity percentage (of overall rate) also generally decreases as frame size decreases.  (BTW, similar issue with disk media.  At least disk capacity isn\x27t, generally, quoted for its unformatted capacity any longer.) The 25 Mbps throughput is rated for minimum sized packets.  Larger packets often allow much higher throughput as the packets per second requirement (for same bandwidth) decreases.  (Sometimes the vendor will document PPS rates for multiple packet sizes.  Without such documentation, or your own testing, just knowing documented performance for one packet size you cannot accurately predict a device\x27s performance for other packet sizes.) \n 來源 \n Switch backplane bandwidth, switching capacity, packet forwarding rate difference Backplane bandwidth refers to the entire switching capacity of the backplane, switching capacity refers to the switching capacity of the CPU, and packet forwarding refers to the capacity of the three-layer forwarding. First, the backplane bandwidth 1. Switch backplane bandwidth meaning \n The backplane bandwidth of the switch, also called the backplane capacity, is the maximum amount of data that can be handled between the switch interface processor or the interface card and the data bus. The backplane bandwidth marks the total data exchange capacity of the switch, in Gbps. The backplane bandwidth of a typical switch ranges from a few Gbps to hundreds of Gbps. The higher the backplane bandwidth of a switch, the better the ability to process data, but at the same time the design cost will be higher. 2. The internal structure of the switch \n The utilization of backplane bandwidth resources is closely related to the internal structure of the switch. At present, the internal structure of the switch mainly has the following types: \n First, a shared memory structure, which relies on a central switching engine to provide a high-performance connection for a full port, and the core engine checks each input packet to determine a route. This method requires a large memory bandwidth and high management cost. Especially with the increase of the switch port, the price of the central memory will be very high, so the switch core becomes the bottleneck of performance realization; \n the second is the cross bus structure, which can Establish a direct point-to-point connection between ports, which is good for single-point transmission, but not suitable for multi-point transmission; \n the third is a hybrid cross-bus structure, which is a hybrid cross-bus implementation. Its design idea is to integrate The cross bus matrix is divided into small cross matrices connected by a high performance bus. The advantage is that the number of cross-buses is reduced, the cost is reduced, and bus contention is reduced; however, the bus connecting the cross-matrix becomes a new performance bottleneck. 3. Linear non-blocking transmission \n The best performance we can buy for the transfer machine is to require linear non-blocking transmission. How do we investigate whether the backplane bandwidth of a switch is sufficient? How to determine whether the design of the switch you bought is reasonable, and there is a blocking structure design? \n Calculation formula: \n A. The sum of the number of all port capacity X ports should be less than the backplane bandwidth, which can realize full-duplex non-blocking switching, which proves that the switch has the conditions of maximizing data exchange performance. \n B. Full configuration throughput (Mbps) = full configuration GE port number × 1.488 Mpps, wherein the theoretical throughput of a Gigabit port with a packet length of 64 bytes is 1.488 Mpps. For example, a switch with up to 64 Gigabit ports should have a full configuration throughput of 64 x 1.488 Mpps = 95.2 Mpps to ensure non-blocking packet switching when all port line speeds are working. Example: If a switch can provide up to 176 Gigabit ports and the declared throughput is less than 261.8 Mpps (176 x 1.488 Mpps = 261.8), then the user has reason to believe that the switch is designed with a blocking structure. \n For 10 Gigabit Ethernet, the packet forwarding rate of a wire-speed port is 14.88 Mpps. \n For Gigabit Ethernet, the packet forwarding rate of a wire-speed port is 1.488 Mpps. \n For Fast Ethernet, the packet forwarding rate of a wire-speed port is 0.1488 Mpps. \n For OC-12 POS ports, the packet forwarding rate of a line rate port is 1.17 Mpps. \n For the POS port of OC-48, the packet forwarding rate of one line-speed port is 468MppS. \n Therefore, if we can meet the above three conditions, then we say that this switch is truly linear and non-blocking; the back-up rate of the switch is generally: \n Mbps, which refers to the second layer, which is used for the exchange of more than three layers. \n Mpps 4. The backplane bandwidth does not exist in the switch with the fixed port. \n This concept is only possible with modular switches (with scalable slots that can flexibly change the number of ports). Fixed-port switches do not have this concept, and the backplane capacity and switching capacity of fixed-port switches are equal. The backplane bandwidth determines the maximum bandwidth for the connection between each board (including boards that are not yet installed in the expandable slot) and the switching engine. Due to the different architectures of modular switches, backplane bandwidth is not fully effective at representing the true performance of the switch. Fixed port switches do not have the concept of backplane bandwidth. Second, the exchange capacity \n It is the transmission capacity of the core CPU and bus, generally smaller than the backplane bandwidth. H3C low-end LSW switching uses the store-and-forward mode. The size of the switching capacity is determined by the bit width of the buffer (BUFFER) and its bus frequency. That is, the switching capacity = cache bit width * cache bus frequency = 96 * 133 = 12.8 Gbps H3C high-end switch exchange capacity can be equal to twice the total port capacity, total port capacity = 2 * (n * 100Mbps + m * 1000Mbps) ( n: indicates that the switch has n 100M ports, m: indicates that the switch has m 1000M ports. \n 3. The packet forwarding rate forwarding capability is measured by the minimum packet length. For the Ethernet minimum packet is 64BYTE, plus the frame overhead 20BYTE. Therefore, the minimum package is 84BYTE. For a full-duplex 1000Mbps interface to achieve line speed requirements: forwarding capacity = 1000Mbps / ((64 + 20) * 8bit) = 1.488Mpps for a full-duplex 100Mbps interface to achieve line speed requirements: forwarding capacity = 100Mbps / ((64+20)*8bit)=0.149Mpps Unit: Mpps (Million packets per second) This article is from the \"Snow Moon Studio\" blog, please be sure to keep this source  http://xueyue8.blog.51cto.com/4650249/1765750   How is the backplane bandwidth, switching capacity, and packet forwarding rate of the switch calculated? For the manufacturers, the standard is higher than the line speed forwarding."), ("tags", JSValue.str ""), ("url", JSValue.str "Switch.html")],
    JSValue.obj [("title", JSValue.str "Google"), ("text", JSValue.str ""), ("tags", JSValue.str ""), ("url", JSValue.str "Google.html")],
    JSValue.obj [("title", JSValue.str "Flask"), ("text", JSValue.str "https://flask.palletsprojects.com/en/1.1.x/   \n"), ("tags", JSValue.str ""), ("url", JSValue.str "Flask.html")],
    JSValue.obj [("title", JSValue.str "Oauth2"), ("text", JSValue.str "https://github.com/zquestz/omniauth-google-oauth2 \n https://github.com/thephpleague/oauth2-google"), ("tags", JSValue.str ""), ("url", JSValue.str "Oauth2.html")],
    JSValue.obj [("title", JSValue.str "Calendar API"), ("text", JSValue.str "https://github.com/kuzmoyev/google-calendar-simple-api \n"), ("tags", JSValue.str ""), ("url", JSValue.str "Calendar API.html")],
    JSValue.obj [("title", JSValue.str "Drive API"), ("text", JSValue.str "https://github.com/iterative/PyDrive2  "), ("tags", JSValue.str ""), ("url", JSValue.str "Drive API.html")],
    JSValue.obj [("title", JSValue.str "Web Site"), ("text", JSValue.str "利用 Github 與 Gitlab 倉儲建立個人網頁 \n 何謂網際內容管理? \n Web-based Content Management \n Content? \n 3D 零組件 \n https://www.onshape.com \n 英文學習紀錄 \n 數學學習紀錄 \n 專業課程學習紀錄 \n Video \n https://github.com/ShareX/ShareX \n https://www.blender.org/ \n Audio \n https://www.audacityteam.org/ \n Images \n https://www.gimp.org/ \n https://inkscape.org/ \n Animation \n Github 是甚麼? \n Gitlab 又是甚麼? \n 自行在 Ubuntu 操作系統上安裝 Gitlab? \n Ubuntu 操作系統? \n 實體系統 \n 虛擬系統 \n Virtualbox"), ("tags", JSValue.str ""), ("url", JSValue.str "Web Site.html")]
  ]

/-- The value assigned to the `tipuesearch` variable by the file. -/
def tipuesearch : JSValue := JSValue.obj [("pages", JSValue.arr pagesList)]

end ContentJs

namespace Part000

/-- The `pages` array literal of the file, record by record. -/
def pagesList : List JSValue :=
  [JSValue.obj [("title", JSValue.str "About"), ("text", JSValue.str "何謂網際內容管理? \n 在網際進行數位內容資料的管理 \n 何謂網際? \n Web-based \n 何謂 Web? \n World-Wide-Web \n client-browser, server-WWW server \n 何謂數位內容? \n 能夠以數位格式儲存的內容 \n text, equation, plot, images, audio, video, multi-media animation \n 何謂管理? \n 分門別類整理後便於保存, 查找, 分享數位內容 \n 管理的目的為何? \n 紀錄解決問題的過程, 期再次碰到類似問題時可以儘量重用內容 \n 為何大多數內容重用只能是儘量重用? \n 因為環境會變, 工具會變, 整體工作環境系統也會不斷改變 \n 執行網際內容管理需不需要寫程式? \n 不寫, 可以用其他人寫的工具與套件 \n 自己寫, 則可以依照自己或團隊的需求, 量身訂做自己需要的工具或管理系統 \n 分組專題: \n W3 自選組員, 6 人一組. \n W10 之後的專題題目自選, 並在  https://github.com/mdecourse/wcmj2021/discussions  進行討論 \n 評分: \n 出席 10% \n 個人倉儲與網頁 30% \n 每週網際簡報 html 與 Pdf 報告 60% (含 Youtube 操作影片) \n Repository template:  https://github.com/mdecourse/cmstemplate \n 電腦輔助設計室與協同設計室行事曆 \n 全頁檢視 \n"), ("tags", JSValue.str ""), ("url", JSValue.str "About.html")],
    JSValue.obj [("title", JSValue.str "三道牆理論"), ("text", JSValue.str "KMOLab 所開設課程目的是將擋在機械工程師面前的三道牆, 直接利用課程講授的過程, 一一呈現, 讓大家有及時找出突破這三道障礙的機會, 不僅讓各自的潛能有所發揮, 同時也希望大家能更自在地面對未來的更多挑戰. 這三道牆分別是: \n 理論基礎障礙 實務練習障礙 確立目標障礙 \n 理論基礎障礙 \n 所謂的理論基礎障礙就是技職體系學生在高中階段經常疏忽的英文, 數學與邏輯思考與獲取學問的基本能力. 也就是英文聽說讀寫的基本能力, 數學基本能力與了解如何透過邏輯思考解題, 並且學習如何發問, 如何與人協同合作解決問題的能力. \n http://mde.tw/cad2020/content/W10-W14.html \n 實務練習障礙 \n 第二道牆則是實務練習障礙, 許多人不願意花時間在突破上述第一道障礙的原因, 通常是因為不知道學習這些相對抽象的知識有甚麼用處? 因此, 為了凸顯突破第一道牆的重要性, 就必須要透過實際的課程案例, 讓大家了解一旦能突破第一道牆的障礙後, 養成持續學習這些理論基礎內容之後, 就可以相對用比較有效率的方式解決各種問題. \n 但是這需要學習者付出時間與耐性, 當面對完全陌生議題時, 就必須檢討是否第一道牆仍然卡在自己與解決方案中間. 然後用心不斷思考, 探索與練習之後, 若還是無法解決問題. 就必須要先試著描述問題後再尋求他人的協助. \n 假如能有以上的正確學習態度, 就有機會在面對各種問題時, 持續突破前面的兩道牆, 然後看到自己所追求的第三道牆, 並且此後能夠竭盡全力, 翻閱第三道牆的障礙, 積極達成預定目標. \n http://mde.tw/cad2020/content/HW1.html \n http://mde.tw/cad2020/content/HW2.html \n http://mde.tw/cad2020/content/HW1_SW.html \n https://github.com/KmolYuan/Pyslvs-UI \n 確立目標障礙 \n 你的人生目標是甚麼? \n https://www.ptt.cc/bbs/Tech_Job/M.1588362728.A.14F.html  "), ("tags", JSValue.str ""), ("url", JSValue.str "三道牆理論.html")],
    JSValue.obj [("title", JSValue.str "Blogger"), ("text", JSValue.str "網誌: \n https://www.blogger.com/ \n https://blog.getpelican.com/ \n 論壇: \n https://www.discourse.org/ \n https://jpme.eng.nfu.edu.tw \n https://forum.eng.nfu.edu.tw \n Blogger, Pelican 與 Discourse 內容能不能整合並同步? \n https://mdecourse.blogspot.com/2020/05/pelican-blogger_21.html \n https://meta.discourse.org/t/how-can-i-implement-a-blog-page-in-discourse-forum-software/48496/6 \n"), ("tags", JSValue.str ""), ("url", JSValue.str "Blogger.html")],
    JSValue.obj [("title", JSValue.str "個人電腦"), ("text", JSValue.str "機械工程師由於必須在個人電腦上繪製並顯示 3D 零組件, 因此個人電腦通常需要配備獨立顯示卡, 其基本規格與電競機類似: \n https://www.crucial.tw/articles/for-gamers/the-best-specs-for-a-gaming-pc \n CPU ( Central Processing Unit ) - 中央處理器 \n Intel Processor:  https://en.wikipedia.org/wiki/List_of_Intel_processors \n AMD Processor:  https://en.wikipedia.org/wiki/List_of_AMD_processors \n ARM Architecture:  https://en.wikipedia.org/wiki/ARM_architecture \n Apple Designed Processor:  https://en.wikipedia.org/wiki/Apple-designed_processors  　 \n FULL HD ( High Definition ) \n Motherboard  主機板 \n RAM ( Random-Access Memory ) \n DDR ( Double Data Rate ) \n 何謂 HDD/SSD? 有何差別? \n 何謂 RPM? \n 何謂 ATA、PATA、與 SATA 連接埠? 有何差別? \n 何謂 Video Card? \n 何謂 fps? \n 何謂 DVI? \n 何謂 HDMI? \n 何謂  LED ? \n 何謂 DirectX? \n 何謂  Watt ? \n 何謂  Power ? \n 何謂 Hz ( Hertz )? \n Computer Monitor \n 何謂 ppi?"), ("tags", JSValue.str ""), ("url", JSValue.str "個人電腦.html")],
    JSValue.obj [("title", JSValue.str "Network"), ("text", JSValue.str "Understanding bandwidth Bandwidth refers to the data rate that is supported by the network connection or the interfaces that connect to the network. It represents both volume and time, representing the amount of data that can be transmitted between two points in a set period of time. It is usually expressed in terms of bits per second (bps), or sometimes in bytes per second (Bps). Network bandwidth represents the capacity of the network connection, though it\x27s important to understand the distinction between theoretical throughput and real-world results when figuring out the right bandwidth formula for your network. For example, a 1000BASE-T -- which uses unshielded twisted-pair cables -- Gigabit Ethernet (GbE) network can theoretically support 1,000 megabits per second (Mbps), but this level can never really be achieved in practice because of hardware and systems software overhead. One point to consider when thinking about how to calculate bandwidth needs on your network is this: Bandwidth should not be confused with throughput, which refers to speed. While high-bandwidth networks are often fast, that is not always the case. A helpful metaphor when thinking about bandwidth is cars on a highway. A high-bandwidth network is like a six-lane highway that can fit hundreds of cars at any given moment. A low-bandwidth network is like a single-lane road in which one car queues directly behind another. Although the large highway is likely to move vehicles faster, rush-hour traffic can easily bring cars and trucks to a standstill. Or, perhaps, the cars cannot get onto the highway quickly because it\x27s clogged with large delivery trucks that take up a lot of space on the road. Similarly, even a high-bandwidth network can run slowly in the face of problems, such as congestion and bandwidth-hungry applications. These very points make calculating bandwidth requirements a challenge, yet the consequences of getting the bandwidth formula wrong are considerable. If you don\x27t procure enough bandwidth, you all but guarantee the network will run slowly. However, significantly overprovisioning bandwidth can be cost-prohibitive for most enterprises. So, how do you determine the right formula that will meet your bandwidth requirements? The process begins with asking the right questions: What applications are users running, and what is the performance service-level agreement for these applications? I know some network managers who are only concerned with how many users are on a virtual LAN. What you really need to know is what the users will be doing on the network. It\x27s possible that 200 users will cause less of a bottleneck than a group of three users that really beats the heck out of the network because of some funky client-server application or extensive use of a bandwidth-heavy service, like high-definition video conferencing. \n \n 了解  https://www.wireshark.org  的用法, 並藉以提升網路頻寬的使用效能及安全. \n 近端下載 \n http://a.kmol.info:88/Wireshark-win64-3.4.2.exe"), ("tags", JSValue.str ""), ("url", JSValue.str "Network.html")],
    JSValue.obj [("title", JSValue.str "Switch"), ("text", JSValue.str "Not all switches are created equal. \n 來源 \n https://www.cisco.com/c/en/us/products/switches/index.html#~products \n https://www.cisco.com/c/dam/en/us/products/collateral/switches/catalyst-9300-series-switches/nb-06-upgrading-cat-9300-fc-cte-en.pdf \n internally to a switch a specialized hardware is needed to move frames between ports. This specific part can be called backplane (背板) or in some cases we talk of switching fabric (交換結構). When the forwarding capabilities of a backplane or switching fabric are greater then the sum of speeds of all ports (counted twice one for tx and one rx direction) we call the switching fabric non blocking: traffic between a pair of ports is not influenced by what traffic is exchanged on all other ports. The forwarding rate is expressed in packet per seconds and expresses how many packets per second are needed to reach a certain traffic volume (throughpout) Clearly forwarding rate depends on frame size. Ideally a backplane switching fabric should be non blocking for every frame size including the smallest ones (64 bytes in ethernet standard) but in reality most devices can be non blocking for an average size of 400 bytes. bandwidth: the speed of traffic. to convert between forwarding rate and used bandwidth we need to take in account some specific aspects of ethernet: each frame has an 8 byte preamble that is used to allow to potential receiver to synchronize with the signal between two frames a minimum silence interval must exist to allow receiver to discriminate between two frames preamble and inter frame gap counts for 20,2 bytes. So given an iP packet of size N the ethernet frame has size N+18  (header 14 bytes, FCS 4 byte) but counts as (N+18+20,2)*8 on wire 8 is number of bits in a byte with this kind of calculation using frames of minimum size 64 bytes you need 1488000 frames per second and per direction to fill a GE port. Be also aware that all figures you see sum tx and rx directions so if a switch has 100 M pps capability this accounts for a certain number of GE ports at 1 Gbps full duplex. \n Do not confuse the speed of the stackwise ring with the internal switching fabric of each stack member, they are different: the internal switching fabric should be used for traffic between ports on the same stack member device, the stackwise bandwidth should be used when traffic must flow between ports located on different stack members. Note: this is just my assumption about the implementation of stack, it may be different with the dual ring involved also for traffic between two ports on the same member switch. (total lack of so called local switching capabilities). The stack implements a dual ring topology between the member switches that act as an extension of the individual switching fabrics. The speed of the ring for a stack of only 3750-X (stackwise plus) should be 32 Gbps full duplex that allows for a very good interconnection between member switches, but I agree it is not enough to classify the composite switching fabric as not blocking. On the other hand, only models with 10GE ports can be interconnected at comparable speeds. To make a comparison a C6500 equipped with Sup720 generation route processor provides up to 40 Gbps per slot to/from the switching fabric and some linecards are faster then that ( think of  WS-6708 or WS-6716 with 8 and 16 tengiga ports respectively). About the forwarding capacity in pps: for a 24 ports device is listed as 65.5 Mbps that accounts for 22 GE ports 1Gbps full duplex with 64 byte frames. \n An original series 3750 (or 3560) fabric is 32 Gbps.  This is different from the stack ring\x27s \"32 Gbps\" (which is really dual 8 Gbps, duplex). An original series 3750 (or 3560) internal fabric, in theory, is oversubscribed by more than 16 gig ports (i.e. the \"G\" suffixed original models). The terms non-blocking and blocking, when examining switch fabric isn\x27t just sufficient bandwidth capacity to forward all port bandwidths, it\x27s whether the fabric\x27s architecture will block, or not, forwarding of frames even if there\x27s \"sufficient\" bandwidth. For example, you have three ingress ports.  Two are sending to one egress port (2:1) and the other is sending to other egress port (1:1).  If 2:1 congestion on the one egress port delays (or blocks) transmission on the 1:1 egress port, you have HOL (head-of-line) blocking even though the internal fabric\x27s bandwidth could support each ingress port sending to a separate egress port (all 1:1). StackWise (and StackWise+), when available, use both ring ports. Original StackWise copies ALL member switch traffic to the stack ring.  Original StackWise source stack member also removes the traffic it placed on the stack ring. StackWise Plus only places unicast traffic on the stack ring when destination is not a local switch port.  Additionally, destination switch member removes unicast packets.  (I.e. StackWise+ uses it\x27s ring much more intelligently.  It also has dual 16 Gbps stack ring ports.  NB:StackWise+, for the most part, reverts to StackWise operation if there\x27s a StackWise only member switch in the stack [good reason not to use such mixed stacks].) Bits per second, is the transmission rate supported by the media.  So, for example, 100 Mbps allows transmission of 100,000,000 bits per seconds.  However, transferring actual data, in something like physical segments (e.g. frames) uses some of this capacity for both framing overhead and framing delineation, so useful capacity is less than the often quoted bps rate.  Useful capacity percentage (of overall rate) also generally decreases as frame size decreases.  (BTW, similar issue with disk media.  At least disk capacity isn\x27t, generally, quoted for its unformatted capacity any longer.) The 25 Mbps throughput is rated for minimum sized packets.  Larger packets often allow much higher throughput as the packets per second requirement (for same bandwidth) decreases.  (Sometimes the vendor will document PPS rates for multiple packet sizes.  Without such documentation, or your own testing, just knowing documented performance for one packet size you cannot accurately predict a device\x27s performance for other packet sizes.) \n 來源 \n Switch backplane bandwidth, switching capacity, packet forwarding rate difference Backplane bandwidth refers to the entire switching capacity of the backplane, switching capacity refers to the switching capacity of the CPU, and packet forwarding refers to the capacity of the three-layer forwarding. First, the backplane bandwidth 1. Switch backplane bandwidth meaning \n The backplane bandwidth of the switch, also called the backplane capacity, is the maximum amount of data that can be handled between the switch interface processor or the interface card and the data bus. The backplane bandwidth marks the total data exchange capacity of the switch, in Gbps. The backplane bandwidth of a typical switch ranges from a few Gbps to hundreds of Gbps. The higher the backplane bandwidth of a switch, the better the ability to process data, but at the same time the design cost will be higher. 2. The internal structure of the switch \n The utilization of backplane bandwidth resources is closely related to the internal structure of the switch. At present, the internal structure of the switch mainly has the following types: \n First, a shared memory structure, which relies on a central switching engine to provide a high-performance connection for a full port, and the core engine checks each input packet to determine a route. This method requires a large memory bandwidth and high management cost. Especially with the increase of the switch port, the price of the central memory will be very high, so the switch core becomes the bottleneck of performance realization; \n the second is the cross bus structure, which can Establish a direct point-to-point connection between ports, which is good for single-point transmission, but not suitable for multi-point transmission; \n the third is a hybrid cross-bus structure, which is a hybrid cross-bus implementation. Its design idea is to integrate The cross bus matrix is divided into small cross matrices connected by a high performance bus. The advantage is that the number of cross-buses is reduced, the cost is reduced, and bus contention is reduced; however, the bus connecting the cross-matrix becomes a new performance bottleneck. 3. Linear non-blocking transmission \n The best performance we can buy for the transfer machine is to require linear non-blocking transmission. How do we investigate whether the backplane bandwidth of a switch is sufficient? How to determine whether the design of the switch you bought is reasonable, and there is a blocking structure design? \n Calculation formula: \n A. The sum of the number of all port capacity X ports should be less than the backplane bandwidth, which can realize full-duplex non-blocking switching, which proves that the switch has the conditions of maximizing data exchange performance. \n B. Full configuration throughput (Mbps) = full configuration GE port number × 1.488 Mpps, wherein the theoretical throughput of a Gigabit port with a packet length of 64 bytes is 1.488 Mpps. For example, a switch with up to 64 Gigabit ports should have a full configuration throughput of 64 x 1.488 Mpps = 95.2 Mpps to ensure non-blocking packet switching when all port line speeds are working. Example: If a switch can provide up to 176 Gigabit ports and the declared throughput is less than 261.8 Mpps (176 x 1.488 Mpps = 261.8), then the user has reason to believe that the switch is designed with a blocking structure. \n For 10 Gigabit Ethernet, the packet forwarding rate of a wire-speed port is 14.88 Mpps. \n For Gigabit Ethernet, the packet forwarding rate of a wire-speed port is 1.488 Mpps. \n For Fast Ethernet, the packet forwarding rate of a wire-speed port is 0.1488 Mpps. \n For OC-12 POS ports, the packet forwarding rate of a line rate port is 1.17 Mpps. \n For the POS port of OC-48, the packet forwarding rate of one line-speed port is 468MppS. \n Therefore, if we can meet the above three conditions, then we say that this switch is truly linear and non-blocking; the back-up rate of the switch is generally: \n Mbps, which refers to the second layer, which is used for the exchange of more than three layers. \n Mpps 4. The backplane bandwidth does not exist in the switch with the fixed port. \n This concept is only possible with modular switches (with scalable slots that can flexibly change the number of ports). Fixed-port switches do not have this concept, and the backplane capacity and switching capacity of fixed-port switches are equal. The backplane bandwidth determines the maximum bandwidth for the connection between each board (including boards that are not yet installed in the expandable slot) and the switching engine. Due to the different architectures of modular switches, backplane bandwidth is not fully effective at representing the true performance of the switch. Fixed port switches do not have the concept of backplane bandwidth. Second, the exchange capacity \n It is the transmission capacity of the core CPU and bus, generally smaller than the backplane bandwidth. H3C low-end LSW switching uses the store-and-forward mode. The size of the switching capacity is determined by the bit width of the buffer (BUFFER) and its bus frequency. That is, the switching capacity = cache bit width * cache bus frequency = 96 * 133 = 12.8 Gbps H3C high-end switch exchange capacity can be equal to twice the total port capacity, total port capacity = 2 * (n * 100Mbps + m * 1000Mbps) ( n: indicates that the switch has n 100M ports, m: indicates that the switch has m 1000M ports. \n 3. The packet forwarding rate forwarding capability is measured by the minimum packet length. For the Ethernet minimum packet is 64BYTE, plus the frame overhead 20BYTE. Therefore, the minimum package is 84BYTE. For a full-duplex 1000Mbps interface to achieve line speed requirements: forwarding capacity = 1000Mbps / ((64 + 20) * 8bit) = 1.488Mpps for a full-duplex 100Mbps interface to achieve line speed requirements: forwarding capacity = 100Mbps / ((64+20)*8bit)=0.149Mpps Unit: Mpps (Million packets per second) This article is from the \"Snow Moon Studio\" blog, please be sure to keep this source  http://xueyue8.blog.51cto.com/4650249/1765750   How is the backplane bandwidth, switching capacity, and packet forwarding rate of the switch calculated? For the manufacturers, the standard is higher than the line speed forwarding."), ("tags", JSValue.str ""), ("url", JSValue.str "Switch.html")],
    JSValue.obj [("title", JSValue.str "Topics"), ("text", JSValue.str "個人電腦軟體與硬體基本概念 \n 網路基本概念與設定 \n Windows 10 64 位元隨身程式系統 \n http://mde.tw \n cmsimde \n blogger \n Github \n Fossil SCM \n http://fossil.kmol.info \n http://mde.tw/fosgit \n http://fossil.kmol.info/fosgit/doc/trunk/index.html \n https://fossil.kmol.info/fosgit/doc/0f7bf53ab9/content/index.html   \n http://jpme.eng.nfu.edu.tw \n"), ("tags", JSValue.str ""), ("url", JSValue.str "Topics.html")],
    JSValue.obj [("title", JSValue.str "Topic 1"), ("text", JSValue.str "計算機概論課程回顧 \n 首先必須先了解電腦輔助設計室中的網路設定: \n 由於上課時各電腦採用純 IPv6 協定上網, 因此可以將 IPv4 網路協定勾選移除, 且以 DHCP6 取得 2001:288:6004:17:xxxx 格式的 IPv6 網路位址, 惟需自行設定 DNS 伺服器. 可以選擇機械設計工程系的 DNS 伺服器 2001:288:6004:17::3 或中華電信 DNS 伺服器 2001:b000:168::1 \n \n 接著學習如何利用可攜式 ShareX 錄製電腦操作畫面流程, 存為 mp4 格式後上傳到 @gm 帳號對應的 Youtube. 本課程建議各學員將每週根據課程進度所操作的流程錄製成 mp4 影片嵌入個人的網誌與網頁中. \n \n 接著學習如何利用 @gm 帳號建立分組 Blogger. 完成後各分組的網誌連結如下: \n https://wcmj2021g1.blogspot.com \n https://wcmj2021g2.blogspot.com \n https://wcmj2021g3.blogspot.com \n https://wcmj2021g4.blogspot.com \n https://wcmj2021g5.blogspot.com \n https://wcmj2021g6.blogspot.com \n https://wcmj2021g7.blogspot.com \n \n 各組組長完成分組 Blogger 網誌建立後, 可利用設定選項將各組員設為可在分組網誌發佈文章的協同管理者或協同作者. \n \n 接著學習如何透過 Youtube 影片中分享功能中的嵌入選擇取得特定影片的 iframe 嵌入 html 後, 可將各組員所製作的電腦操作影片嵌入個人網站或分組網誌中. \n \n 每一位學員登入學校配發的 Gmail 帳號後, 至  https://www.blogger.com  建立一個網誌, 並將上學期計算機課程的內容摘要整理為  Blogger  網誌內容. 可以按照每一週的教學內容整理為網誌, 或者根據教學主題內容整理為網誌內容. \n 請問: \n 已知  修課學員名單  ( nfulist 程式碼 ) ( 從教務主機查詢資料 ) 可以取得修課學員名單, 是否可以用於取得各學員的個人  Blogger  連結? \n 採人工方式啟動 Ethercalc 網際表單, 從修課學員名單中複製學號行資料, 然後在  https://gitter.im/mdecourse/wcmj2021  公佈網際表單連結, 讓各學員依照學號填入個人 Blogger 網誌連結後, 再複製資料, 並設法轉為 HTML Anchor 連結. \n 上述流程能不能採更方便的流程進行 (減少人工複製與處理可能產生的錯誤)? \n http://mde.tw/cad2020/content/Ethercalc.html \n https://github.com/audreyt/ethercalc/blob/master/API.md \n https://pypi.org/project/ethercalc-python/ \n http://mde.tw/cd2021/content/Topics.html \n Blogger API  能夠做甚麼? \n 相關技術: \n Python  - 會編寫基本的 Python 程式 \n http://mde.tw/cp2020 \n HTML  - 了解超文件相關標註用法 \n Jascript  - 了解 Javascript 如何與 HTML 結合應用? \n Flask  - 了解如何使用 Flask 網際框架? \n bs4  - 了解如何透過 Python 的 beautifulsoup 模組解讀 HTML 取用網頁上的相關資料? \n AJAX  - 了解 AJAX 如何運作? 如何應用? \n Heroku  - 了解如何將網際程式部署到 Heroku 雲端系統? \n http://mde.tw/cp2020/content/Heroku.html \n http://mde.tw/cp2020/content/scissor-rock-paper.html \n 應該要如何將選課學員的個人  Blogger  網誌連結整理 (嵌入)在這個頁面? \n 2010_Beginning Google Blogger.pdf \n 網際內容管理課程目標: \n 精密機械設計工程師可以利用具版次與歷程管理系統, 長期記錄學習與研究結果. \n 利用網際流程展示產品設計或製造流程 \n http://mde.tw/virtualkossel/   \n 背景知識: \n  英文閱讀能力重不重要? \n 何謂  World Wide Web ? ( 全球資訊網 , 又稱為萬維網) \n 為什麼  https://zh.wikipedia.org/wiki/%E4%B8%87%E7%BB%B4%E7%BD%91  其實就是 https://zh.wikipedia.org/wiki/萬維網 \n html 與 WWW 的關係為何？ \n 為什麼在上列中文版的萬維網說明頁面, 會被標註\"此條目翻譯品質不佳\"? 英文說明頁為何沒有這樣的問題? \n 電腦軟硬體應用能力重不重要? \n 要將各學員的  Blogger  網誌連結放入這個頁面, 除了手動一一 key in 編輯外, 還有沒有其他較有效率的做法? \n 用  https://ethercalc.net/  按照學號次序取得各學員的  Blogger  網誌連結後, 存成檔案, 然後再編寫程式讀取各學員的網誌連結後, 建立所需的 html 超文件格式內容後, 直接差異本頁面特定位置後存檔. \n 將本網誌設定為可公開編輯的動態網頁模式, 讓各學員自行登入將網誌連結輸入後, 以\"協同編輯模式\"存檔後進行檢查與整理. (此一方案所得到的結果, 與上列其他方法比較有何優點或缺點?) \n 還有沒有其他更有效率的做法? \n 議題討論: \n 假如一位精密機械工程師只能接收中文資料, 面對\"翻譯品質不佳\"的萬維網\"說明內容, 是否應該有因應對策? \n KMOLab 鼓勵年輕人儘快翻越橫在面前的 三面牆理論 . \n 假如想要利用程式方法解決電腦軟硬體應用過程所碰到的問題? 該具備哪些基本條件? \n 你對電腦與網路的軟硬體配置及應用有多少了解? \n 你是否具備基本的英文閱讀能力? 你能夠不看鍵盤進行英文與中文打字嗎? 我應該要學習哪一種或哪幾種中文輸入法? 或者此後完全使用語音轉文字的方式輸入? \n 截至目前只上過計算機概論, 而且下學期才上計算機程式, 我們有能力現在就開始學習如何寫電腦程式嗎? \n 電腦與網路軟硬體是現代人生活中不可或缺的工具, 只要確認數位方法能夠有效解決問題, 任何人都可以在任一時間點設法透過客製化的軟硬體方案 (自行編寫或修改既有方案) 解決所面臨的問題. \n 了解 Windows 10 64 位元基本操作方式 \n 自行在 Windows 10 64 位元中建立可攜程式環境 (Why?) \n 自行在 Windows 10 64 位元環境中建立 Ubuntu 虛擬 Virtualbox 主機, 或者透過  WSL  了解 Linux 系統應用方法. \n"), ("tags", JSValue.str ""), ("url", JSValue.str "Topic 1.html")],
    JSValue.obj [("title", JSValue.str "W2-W3"), ("text", JSValue.str "說明與機械設計工程系綜一館八樓電腦輔助設計室電腦網路設定有關的步驟 \n \n demo 如何利用 git 將遠端  https://github.com/mdecourse/wcmj2021  倉儲 git clone --recurse-submodules URL 到近端後, 利用 Python 啟動 cmsimde 網際內容管理系統的動態網站, 加入第三階的 W2 頁面後, 將上一個影片嵌入後, 以 git add, commit 及 push 把改版的內容新增提交推送至 Github 倉儲, 得到改版後的  http://mde.tw/wcmj2021/content/W2.html \n \n 說明如何從  http://a.kmol.info:88  下載可攜程式系統 kmol2021_spring_v3.7z, 利用  https://www.7-zip.org  解開壓縮後, 即可用 start_ipv6.bat 啟動系統, 並示範如何執行 Python 程式. \n \n 說明如何利用  https://github.com/mdecourse/cmstemplate  建立自己的 帳號.github.io 網站 \n"), ("tags", JSValue.str ""), ("url", JSValue.str "W2-W3.html")],
    JSValue.obj [("title", JSValue.str "W4"), ("text", JSValue.str "截至目前為止, 我們已經介紹如何利用學校所配發的 @gm 電子郵件帳號建立在  https://www.blogger.com  的 個人網誌 以及 分組網誌 , 也說明如何在  https://github.com/  利用  帳號.github.io  倉儲建立 個人網站 , 接下來將以每組六人為一個單位進行網際內容的閱讀以及整理, 以下為第九週期中考之前, 希望各組完成閱讀, 討論並整理的相關內容: \n \n 與計算機概論與電腦網路有關的內容整理 -  Intro to computer1 ,  2 ,  computer networks , ( ntu ee course ) \n 與 Google 發展有關的內容整理 - 有關 Google 的發展歷史:  https://en.wikipedia.org/wiki/Google , 請各組組員仔細閱讀這份資料後, 將認為重點的資料放入各學員的 blogger 網誌以及個人網站中. \n https://developers.google.com/blogger   \n \n 說明如何在 Github 帳號下利用 \"帳號.github.io\" 倉儲建立網頁. 基本的建置流程為: \n \n 登入 Github 帳號 \n 連線至  https://github.com/mdecourse/cmstemplate  後點擊 Use this template, 以此倉儲內容作為樣板, 所建立的倉儲即可透過 Github Pages 的架構, 產生對應的個人網頁 \n 假如再使用 Brython 可以在網頁中建立一個基本的網際 Python 練習頁面 \n \n \n W10-W18 \n \n 網際內容管理應用 I -  Brython ,  Glowsript \n 網際內容管理應用 II -  Fossil SCM \n 進展中的網際與數位未來 - 一張 六千九百萬美元的數位圖檔 ,  What is Blockchain? ,  區塊鏈專題報告 ,  應用範例 ,  中國區塊練產業白皮書 ,  Build Your Own Blockchain \n"), ("tags", JSValue.str ""), ("url", JSValue.str "W4.html")],
    JSValue.obj [("title", JSValue.str "Python"), ("text", JSValue.str "Python 語法 \n 由於 Github Pages 不允許伺服 __init__.py 檔案, 因此下列範例中需要導入 ggame 的部分, 將無法在 Github Pages 網站中執行. \n Python 3 官方教材:  https://docs.python.org/3/index.html \n Python tutorial:  https://docs.python.org/3/tutorial/index.html  (英文) \n Python 教學:  https://python-doc-tw.github.io/tutorial/index.html \n 網頁上的 Python - Brython:  https://www.brython.info/static_doc/en/intro.html  (解譯式) \n 網頁上的 Python GUI- Flexx:  https://flexx.readthedocs.io/en/stable/  (轉譯式) \n 開放電子書: \n Python 教程  (中文) \n Python 入門指南  (中文) \n how-to-code-in-python.pdf  (英文) \n https://www.py4e.com/book.php  (英文與小部分完成中文翻譯) \n \n \n \n  for ggame  \n \n \n \n \n \n  Cango 程式庫  \n \n \n \n  for Konva 程式庫  \n \n \n \n  導入 FileSaver 與 filereader  \n \n \n \n \n  導入 ace  \n \n \n \n \n \n \n  請注意, 這裡使用 Javascript 將 localStorage[\"py_src\"] 中存在近端瀏覽器的程式碼, 由使用者決定存檔名稱 \n \n \n \n 開始練習 print() 用法, 並著手建立函式 \n  印出版次與關鍵字程式  \n \n \n \n  用來顯示程式碼的 editor 區域  \n \n  以下的表單與按鈕與前面的 Javascript doSave 函式以及 FileSaver.min.js 互相配合  \n Filename:  .py   \n Run   Output   清除輸出區 清除繪圖區 Reload \n \n \n \n  ****************************** keyword start  \n \n \n  ****************************** keyword end  \n  ***************************** slide ex1 start  \n \n \n \n  ***************************** slide ex1 end  \n  ***************************** slide ex2 start  \n \n \n \n  ***************************** slide ex2 end  \n  ***************************** slide ex3 start  \n \n \n \n  ***************************** slide ex3 end  \n  ***************************** slide ex4 start  \n \n \n \n  ***************************** slide ex4 end  \n  line drawing start  \n \n \n \n  line drawing ends  \n \n  flag ex start  \n \n \n \n  flag ex ends  \n \n  bunny start  \n \n \n \n  bunny ends  \n \n  clear canvas start  \n \n \n \n  clear canvas ends  \n \n  cango spur gears start  \n \n \n \n  cango spur gears ends  \n \n  temp convert start  \n \n \n \n  temp convert ends  \n \n  forloop start  \n \n \n \n  forloop ends  \n \n  guess start  \n \n \n \n  guess ends  \n \n  autoguess start  \n \n \n \n  autoguess ends  \n \n  lottery start  \n \n \n \n  lottery ends  \n \n  台灣威力彩 start  \n \n \n \n  台灣威力彩 ends  \n \n  bezier starts  \n \n \n \n  bezier ends  \n \n  turtle1 starts  \n \n \n \n  turtle1 ends  \n \n  turtle2 starts  \n \n \n \n  turtle2 ends  \n \n  turtle3 starts  \n \n \n \n  turtle3 ends  \n \n  turtle4 starts  \n \n \n \n  turtle4 ends  \n \n  turtle5 starts  \n \n \n \n  turtle5 ends  \n \n  turtle6 starts  \n \n \n \n  turtle6 ends  \n \n  turtle7 starts  \n \n \n \n  turtle7 ends  \n \n  turtle8 starts  \n \n \n \n  turtle8 ends  \n \n  konva1 starts  \n \n \n \n  konva1 ends  \n \n  ycqsort starts  \n \n \n \n  ycqsort ends  \n \n  ball starts  \n \n \n \n  ball ends  \n  ****************************** bubble sort start  \n \n \n  ****************************** bubble sort end  \n Keyword Bubble Sort Ex1 Ex2 Ex3 Ex4 Ex5 Guess Autoguess 大樂透 威力彩 Temp Draw Flag Bezier Turtle1 Turtle2 Turtle3 Turtle4 Turtle5 Turtle6 Turtle7 Turtle8 Konva1 Bunny Ball Spur Ycqsort Clear \n 參考資料: \n turtle_intro.pdf \n turtle_intro2.pdf \n 其他擷取程式的方式:  http://mde.tw/2017springvcp/blog/web-based-python.html \n Qt for Python \n https://www.qt.io/qt-for-python \n https://build-system.fman.io/python-qt-tutorial \n https://build-system.fman.io/pyqt-exe-creation/ \n https://github.com/mherrmann/fbs-tutorial \n https://www.ics.com/blog/we-ported-qt-app-c-python-heres-what-happened \n QML 與 Flutter \n https://paulhammant.com/2016/11/15/qmls-squandered-opportunity/  中所提到 QML 的弱點在於將 .qml 與 .c++ 或 .py  分開的問題, Google 總算在 Flutter 適度解決了此一瓶頸. \n 但是 QML 加上 Qt for Python 仍不失為一個好了 Desktop GUI 開發框架. \n \n \n \n \n \n \n"), ("tags", JSValue.str ""), ("url", JSValue.str "Python.html")],
    JSValue.obj [("title", JSValue.str "W5"), ("text", JSValue.str "網際內容管理的使用建議: \n \n 在雲端上只存放與個人或團隊專業有關的內容 (以學號作為 identity, 除了  Linkedin  外, 不要使用本名) \n 不要將個人生活有關的圖文放到網際空間 (不要使用臉書, 不要使用其他任何雲端社群服務擺放任何個人資料) \n 儘量使用瀏覽器查找資料, 每次使用後要刪除暫存檔, 避免使用手機上綁定實名制的 Apps \n \n 這個禮拜開始至 W9, 各小組要將 W1-W4 的教學影片加以整理, 讓每位組員都能在 Blogger 整理自己過去一個多學期的課程學習內容, 以網際內容管理架構, 可攜程式系統及 Github 倉儲與網頁的模式存放內容. \n 網際內容管理學習 Check List: \n \n 是否已經建立個人 Blogger? \n 是否會使用 Blogger, 新增協同著作者? \n 是否會在 Blogger 中使用各種 HTML 標註, 包括加入 Python 程式碼, 嵌入影片檔案等? \n 是否會利用  https://github.com/mdecourse/cmstemplate  建立個人網頁? \n 是否會在個人網站上嵌入網際 Python ( Brython ) 程式環境? \n 是否已經了解所謂的 Bubble Sort Python 程式? \n 是否已經會使用 SSH 將改版資料 push 到 Github? \n 各組是否已經找到想要研究的網際內容管理相關的分組專案題目? \n \n 2008_Organizing and Managing Personal Electronic Files- A Mechanical Engineer’s Perspective.pdf \n how-to-code-in-python.pdf \n 2018_中國區塊鍊產業白皮書.pdf \n 2019-08專題報告-區塊鏈plus時代的社經變革與創新思維.pdf \n 2020年中小企業白皮書(全)_v1.pdf \n 創意台灣 2020 政策白皮書.pdf \n Blockchain_for_dummies.pdf \n ComputerNetworks_936_pages.pdf \n 2030 台灣科技願景: \n taiwan_2030_tech_vision.pdf"), ("tags", JSValue.str ""), ("url", JSValue.str "W5.html")],
    JSValue.obj [("title", JSValue.str "Topic2"), ("text", JSValue.str "學校與系上所提供的軟體套件安裝介紹 \n Windows 10 \n 校園軟體 \n 設計與分析套件: \n 輔助工具 \n 校園下載 以下連結必須在校園網路、使用學校代理主機或 vpn 模式下才可下載 AutoDesk PDSU  (Product Design Suite Ultimate edition) 包含: Autodesk Inventor Professional AutoCAD Mechanical AutoCAD Electrical AutoCAD Navisworks Simulate AutoCAD Raster Design Autodesk Recap Autodesk Vault Basic Autodesk Fusion 360 Navisworks Manage AutoDesk 安裝教學.pdf 官方網站下載  希望在任何地方使用,可以從  https://www.autodesk.com/education/free-software/inventor-professional  , 以 @gm 電子郵箱登錄且認證後下載, 取得三年免費使用授權. 允許同時安裝在筆電與桌上型電腦共兩套. 建議安裝流程 利用學校配發的電子郵箱, 連結至  https://www.autodesk.com/education/free-software/inventor-professional  , 登記帳號, 驗證 email 後, 取得 AutoDesk Inventor Professional 版本 2019 的 Serial Number 後, 從學校網站中下載  AutoDesk PDSU , 安裝後, 利用前述所取得的序號啟動 AutoDesk Inventor Professional 2019, 之後就可以在任何地方上網使用. \n 只要是校內 IP 就可以下載, 無需使用 vpn. https://software.nfu.edu.tw/Developer/Visual%20Studio/tw/Visual_Studio_Pro_2019.zip   https://software.nfu.edu.tw/Developer/Visual%20Studio/tw/Visual_Studio_Pro_2017.zip   https://software.nfu.edu.tw/Developer/Visual%20Studio/tw/Visual_Studio_Pro_2015.zip   https://software.nfu.edu.tw/Developer/Visual%20Studio/en/Visual_Studio_Pro_2015.zip   https://software.nfu.edu.tw/Windows/tw/Win10_1909_64BIT_CH.ISO https://software.nfu.edu.tw/KMS/windows_kms.bat   https://software.nfu.edu.tw/Office/tw/Office_Pro_Plus_2016_64Ch.iso https://software.nfu.edu.tw/KMS/Office_2016_KMS.bat \n https://software.nfu.edu.tw/Autodesk/autodesk.iso   https://software.nfu.edu.tw/files/AUTODESK%E5%AE%89%E8%A3%9D%E6%95%99%E5%AD%B8.pdf   2001:288:6004:1::115"), ("tags", JSValue.str ""), ("url", JSValue.str "Topic2.html")],
    JSValue.obj [("title", JSValue.str "Google"), ("text", JSValue.str "有關 Google 的發展歷史:  https://en.wikipedia.org/wiki/Google  請各組仔細閱讀這份資料後, 將認為重點的資料放入各學員的 blogger 網誌以及個人網站中."), ("tags", JSValue.str ""), ("url", JSValue.str "Google.html")],
    JSValue.obj [("title", JSValue.str "Flask"), ("text", JSValue.str "https://flask.palletsprojects.com/en/1.1.x/   \n"), ("tags", JSValue.str ""), ("url", JSValue.str "Flask.html")],
    JSValue.obj [("title", JSValue.str "Oauth2"), ("text", JSValue.str "https://github.com/zquestz/omniauth-google-oauth2 \n https://github.com/thephpleague/oauth2-google"), ("tags", JSValue.str ""), ("url", JSValue.str "Oauth2.html")],
    JSValue.obj [("title", JSValue.str "Calendar API"), ("text", JSValue.str "https://github.com/kuzmoyev/google-calendar-simple-api \n"), ("tags", JSValue.str ""), ("url", JSValue.str "Calendar API.html")],
    JSValue.obj [("title", JSValue.str "Drive API"), ("text", JSValue.str "https://github.com/iterative/PyDrive2  "), ("tags", JSValue.str ""), ("url", JSValue.str "Drive API.html")],
    JSValue.obj [("title", JSValue.str "Web Site"), ("text", JSValue.str "利用 Github 與 Gitlab 倉儲建立個人網頁 \n 何謂網際內容管理? \n Web-based Content Management \n Content? \n 3D 零組件 \n https://www.onshape.com \n 英文學習紀錄 \n 數學學習紀錄 \n 專業課程學習紀錄 \n Video \n https://github.com/ShareX/ShareX \n https://www.blender.org/ \n Audio \n https://www.audacityteam.org/ \n Images \n https://www.gimp.org/ \n https://inkscape.org/ \n Animation \n Github 是甚麼? \n Gitlab 又是甚麼? \n 自行在 Ubuntu 操作系統上安裝 Gitlab? \n Ubuntu 操作系統? \n 實體系統 \n 虛擬系統 \n Virtualbox"), ("tags", JSValue.str ""), ("url", JSValue.str "Web Site.html")]
  ]

/-- The value assigned to the `tipuesearch` variable by the file. -/
def tipuesearch : JSValue := JSValue.obj [("pages", JSValue.arr pagesList)]

end Part000
/-- Top-level JavaScript statements relevant to these files: a `var`
declaration of a literal, a field assignment `x.f = v;`, and a field
deletion `delete x.f;`.  Each data file contains exactly one statement,
a `var` declaration; the mutation forms are in the language so that
their absence from the files can be stated. -/
inductive Stmt : Type where
  | varDecl (name : String) (value : JSValue)
  | setField (varName fieldName : String) (value : JSValue)
  | delField (varName fieldName : String)

/-- A variable environment: bindings from names to values, most recent
first. -/
abbrev Env := List (String × JSValue)

/-- Replace (or append) the value of a key in a field list. -/
def updateField (k : String) (v : JSValue) :
    List (String × JSValue) → List (String × JSValue)
  | [] => [(k, v)]
  | (k2, w) :: rest =>
      if k = k2 then (k, v) :: rest else (k2, w) :: updateField k v rest

/-- Execute one statement in an environment. -/
def execStmt (env : Env) : Stmt → Env
  | .varDecl n v => (n, v) :: env
  | .setField x f v =>
      match lookupField x env with
      | some (.obj fs) => (x, .obj (updateField f v fs)) :: env
      | _ => env
  | .delField x f =>
      match lookupField x env with
      | some (.obj fs) => (x, .obj (fs.filter (fun p => decide (p.1 ≠ f)))) :: env
      | _ => env

/-- Run a whole program from an initial environment. -/
def runProgram (stmts : List Stmt) (env : Env) : Env := stmts.foldl execStmt env

/-- Is the statement a plain `var` declaration (not a mutation)? -/
def isVarDecl : Stmt → Bool
  | .varDecl _ _ => true
  | _ => false

/-- The whole program of `src/content/tipuesearch_content.js`: the single
statement `var tipuesearch = <literal>;`. -/
def ContentJs.program : List Stmt := [Stmt.varDecl "tipuesearch" ContentJs.tipuesearch]

/-- The whole program of `src/unnamed/part_000`: the single statement
`var tipuesearch = <literal>;`. -/
def Part000.program : List Stmt := [Stmt.varDecl "tipuesearch" Part000.tipuesearch]

/-- C1: every record in the `pages` sequence of each of the two data
files has exactly the four fields `title`, `text`, `tags`, `url`, each
present (non-null) and each holding a string value. -/
theorem c1_records_have_four_string_fields :
    (pagesOf ContentJs.tipuesearch).all pageWellFormed = true ∧
    (pagesOf Part000.tipuesearch).all pageWellFormed = true :=
  ⟨by decide, by decide⟩

/-- C2: every record's `url` field, in both data files, is a well-formed
relative path (no URI scheme, not an absolute path) ending in `.html`. -/
theorem c2_urls_are_relative_html_paths :
    (pagesOf ContentJs.tipuesearch).all urlWellFormed = true ∧
    (pagesOf Part000.tipuesearch).all urlWellFormed = true :=
  ⟨by decide, by decide⟩

/-- C3: every record's `tags` field, in both data files, equals the empty
string. -/
theorem c3_tags_always_empty :
    (pagesOf ContentJs.tipuesearch).all tagsEmpty = true ∧
    (pagesOf Part000.tipuesearch).all tagsEmpty = true :=
  ⟨by decide, by decide⟩

/-- C4: in each data file the top-level value assigned to `tipuesearch`
is an object with exactly one key, `pages`, holding an ordered sequence
(array) of records. -/
theorem c4_top_level_single_pages_key :
    topLevelShape ContentJs.tipuesearch = true ∧
    topLevelShape Part000.tipuesearch = true :=
  ⟨by decide, by decide⟩

/-- C5: in each data file the `pages` sequence is non-empty. -/
theorem c5_pages_nonempty :
    0 < (pagesOf ContentJs.tipuesearch).length ∧
    0 < (pagesOf Part000.tipuesearch).length :=
  ⟨by decide, by decide⟩

/-- C6: titles and urls repeat across the two data files: some title
occurs in both files' records, and some url occurs in both files'
records, so identifiers are not unique across the union of the two
sequences. -/
theorem c6_titles_and_urls_repeat_across_files :
    (∃ t ∈ titlesOf (pagesOf ContentJs.tipuesearch),
        t ∈ titlesOf (pagesOf Part000.tipuesearch)) ∧
    (∃ u ∈ urlsOf (pagesOf ContentJs.tipuesearch),
        u ∈ urlsOf (pagesOf Part000.tipuesearch)) :=
  ⟨by decide, by decide⟩

/-- C7: each file is a single `var` declaration and contains no mutation
statement, so the value bound to `tipuesearch` after running the file is
the embedded constant whatever the initial environment was; in
particular any two evaluations of a file yield equal values. -/
theorem c7_single_assignment_readonly :
    (ContentJs.program.all isVarDecl = true ∧
     Part000.program.all isVarDecl = true) ∧
    (∀ env : Env, lookupField "tipuesearch" (runProgram ContentJs.program env) =
        some ContentJs.tipuesearch) ∧
    (∀ env : Env, lookupField "tipuesearch" (runProgram Part000.program env) =
        some Part000.tipuesearch) := by
  refine ⟨⟨rfl, rfl⟩, fun env => ?_, fun env => ?_⟩ <;> rfl

/-- C8: in both data files every record's `url` equals its `title` with
`.html` appended. -/
theorem c8_url_is_title_dot_html :
    (pagesOf ContentJs.tipuesearch).all urlMatchesTitle = true ∧
    (pagesOf Part000.tipuesearch).all urlMatchesTitle = true :=
  ⟨by decide, by decide⟩

/-- C9: within each single data file the titles are pairwise distinct and
the urls are pairwise distinct; the duplication of titles and urls exists
only across the two files (as the final two conjuncts witness), never
inside one file's sequence. -/
theorem c9_within_file_titles_and_urls_distinct :
    (titlesOf (pagesOf ContentJs.tipuesearch)).Nodup ∧
    (urlsOf (pagesOf ContentJs.tipuesearch)).Nodup ∧
    (titlesOf (pagesOf Part000.tipuesearch)).Nodup ∧
    (urlsOf (pagesOf Part000.tipuesearch)).Nodup ∧
    (∃ t ∈ titlesOf (pagesOf ContentJs.tipuesearch),
        t ∈ titlesOf (pagesOf Part000.tipuesearch)) ∧
    (∃ u ∈ urlsOf (pagesOf ContentJs.tipuesearch),
        u ∈ urlsOf (pagesOf Part000.tipuesearch)) :=
  ⟨by decide, by decide, by decide, by decide, by decide, by decide⟩

/-- C10: in `src/content/tipuesearch_content.js` there is a record (the
one titled `Google`) whose `text` field is the empty string while its
`title` and `url` fields are non-empty, so consumers cannot assume
non-empty bodies. -/
theorem c10_google_record_has_empty_text :
    ∃ r ∈ pagesOf ContentJs.tipuesearch,
      titleOf r = some "Google" ∧ textOf r = some "" ∧
      urlOf r = some "Google.html" ∧
      "Google" ≠ "" ∧ "Google.html" ≠ "" := by
  decide
